import Mathlib

/-!
# Verification of the request-orchestration pipeline (ashley-ai-unified)

Shallow embedding of the Python service's core turn pipeline:

* `tools/tokenizer.py`  — token counting and `safe_truncate_messages`
* `app/moderation.py`   — `ModerationController.evaluate`
* `app/router.py`       — `select_model` / `_derive_tools`
* `app/orchestrator.py` — `_tool_context`, `_memory_context`,
  `_prepare_messages`, and `stream_reply` (with `_generator` /
  `_finalize_response`)

Modelling conventions:

* Python `str` is Lean `String`; `str.strip()` is `pyStrip`,
  `s[n:]` is `pyDrop`, `s[:n]` is `pyTake`, `s.startswith(p)` is
  `pyStartsWith`, substring containment is `pyContains` — all defined by
  structural recursion on the character list so concrete inputs evaluate.
* The tiktoken encoder (an external library; `get_encoder` falls back to a
  generic encoding for unknown models) is modelled as the generic
  one-token-per-character encoding: `encode s = s.data`,
  `decode ts = String.mk ts`.  Token counts and tail-slicing of token lists
  are preserved exactly by this model.
* Python `int` is `Int` where a value can be negative (the truncation
  budget arithmetic), `Nat` elsewhere; `float` generation parameters and
  scores are modelled as `Rat`.
* Collaborators (OpenAI client, search providers, file-Q&A retrieval,
  sandboxed code execution, memory store, persona files) are inputs: a
  fallible collaborator is a function into `Except`; calls made to them and
  the writes performed are returned as part of the result so that theorems
  can speak about "invokes", "persists", "records".
-/

/-! ## String helpers

Python string primitives modelled over the character list of a `String`
(structurally recursive, so that concrete witnesses evaluate inside the
kernel). -/

/-- Python `str.strip()`: drop whitespace from both ends. -/
def pyStrip (s : String) : String :=
  String.mk (((s.data.dropWhile Char.isWhitespace).reverse.dropWhile
    Char.isWhitespace).reverse)

/-- Python `s[n:]` for a nonnegative `n`. -/
def pyDrop (s : String) (n : Nat) : String := String.mk (s.data.drop n)

/-- Python `s[:n]` for a nonnegative `n`. -/
def pyTake (s : String) (n : Nat) : String := String.mk (s.data.take n)

/-- Python `s.startswith(p)`. -/
def pyStartsWith (s p : String) : Bool := p.data.isPrefixOf s.data

/-- Helper for substring search: `List.isPrefixOf` scanned along the
haystack. -/
def containsCharList : List Char → List Char → Bool
  | [], needle => needle.isEmpty
  | c :: t, needle => needle.isPrefixOf (c :: t) || containsCharList t needle

/-- Python `needle in haystack` (substring containment). -/
def pyContains (haystack needle : String) : Bool :=
  containsCharList haystack.data needle.data

/-- Python `str.lower()`. -/
def pyLower (s : String) : String := String.mk (s.data.map Char.toLower)

/-! ## tools/tokenizer.py -/

/-- A history message as passed to `safe_truncate_messages`:
a dict `{"role": ..., "content": ...}`. -/
structure PlainMessage where
  role : String
  content : String
deriving DecidableEq

/-- `encoder.encode` — tiktoken modelled as the generic one-token-per-character
encoding (see module header). -/
def encodeTokens (text : String) : List Char := text.data

/-- `encoder.decode` for the same model. -/
def decodeTokens (toks : List Char) : String := String.mk toks

/-- `count_tokens(text, model)` = `len(encoder.encode(content))`. -/
def count_tokens (text : String) : Nat := (encodeTokens text).length

/-- Per-message cost used by `safe_truncate_messages`:
`len(encoder.encode(content)) + 3`. -/
def messageTokens (m : PlainMessage) : Nat := count_tokens m.content + 3

/-- Total of the per-message costs of a history (content tokens plus 3
per-message overhead, summed). -/
def totalMessageTokens (msgs : List PlainMessage) : Nat :=
  (msgs.map messageTokens).sum

/-- The backwards accumulation loop of `safe_truncate_messages`
(`tools/tokenizer.py`, lines 77–88).  The input list is the reversed
history; `total` is `total_tokens`.  On overflow the message is partially
included by keeping the tail of its token list when `remaining > 0`, and
iteration stops (`break`). -/
def truncGo (maxPromptTokens : Int) : List PlainMessage → Int → List PlainMessage
  | [], _ => []
  | m :: rest, total =>
    let contentToks := encodeTokens m.content
    let msgTokens : Int := (contentToks.length : Int) + 3
    if total + msgTokens > maxPromptTokens then
      let remaining := maxPromptTokens - total - 3
      if remaining > 0 then
        [⟨m.role, decodeTokens (contentToks.drop (contentToks.length - remaining.toNat))⟩]
      else []
    else m :: truncGo maxPromptTokens rest (total + msgTokens)

/-- `safe_truncate_messages(messages, model, max_prompt_tokens)`:
walk the reversed history accumulating per-message costs, truncate or drop
at the first overflow, and re-reverse into chronological order. -/
def safe_truncate_messages (messages : List PlainMessage)
    (maxPromptTokens : Int) : List PlainMessage :=
  (truncGo maxPromptTokens messages.reverse 0).reverse

lemma totalMessageTokens_reverse (l : List PlainMessage) :
    totalMessageTokens l.reverse = totalMessageTokens l := by
  simp [totalMessageTokens, List.map_reverse, List.sum_reverse]

lemma truncGo_total_le (maxT : Int) :
    ∀ (l : List PlainMessage) (total : Int), total ≤ maxT →
      (totalMessageTokens (truncGo maxT l total) : Int) + total ≤ maxT := by
  intro l
  induction l with
  | nil =>
    intro total h
    simpa [truncGo, totalMessageTokens] using h
  | cons m rest ih =>
    intro total h
    by_cases hover : total + (((m.content.data.length : Int)) + 3) > maxT
    · by_cases hrem : (0 : Int) < maxT - total - 3
      · -- partial inclusion: the truncated message costs exactly the remaining budget
        have hlen : (maxT - total - 3) < ((m.content.data.length : Int)) := by omega
        have htn : ((maxT - total - 3).toNat : Int) = maxT - total - 3 :=
          Int.toNat_of_nonneg (by omega)
        have htn_lt : (maxT - total - 3).toNat < m.content.data.length := by omega
        have hdrop :
            (m.content.data.drop
              (m.content.data.length - (maxT - total - 3).toNat)).length
              = (maxT - total - 3).toNat := by
          rw [List.length_drop]
          omega
        simp only [truncGo, encodeTokens, if_pos hover, if_pos hrem]
        simp only [totalMessageTokens, List.map_cons, List.map_nil, List.sum_cons,
          List.sum_nil, messageTokens, count_tokens, encodeTokens, decodeTokens]
        simp only [String.data] at hdrop ⊢
        rw [hdrop]
        omega
      · simp only [truncGo, encodeTokens, if_pos hover, if_neg hrem]
        simpa [totalMessageTokens] using h
    · simp only [truncGo, encodeTokens, if_neg hover]
      have := ih (total + (((m.content.data.length : Int)) + 3)) (by omega)
      simp only [totalMessageTokens, List.map_cons, List.sum_cons, messageTokens,
        count_tokens, encodeTokens] at this ⊢
      push_cast at this ⊢
      omega

lemma truncGo_fits (maxT : Int) :
    ∀ (l : List PlainMessage) (total : Int),
      (totalMessageTokens l : Int) + total ≤ maxT → truncGo maxT l total = l := by
  intro l
  induction l with
  | nil => intro total _; simp [truncGo]
  | cons m rest ih =>
    intro total hfit
    have htot : (totalMessageTokens (m :: rest) : Int)
        = ((m.content.data.length : Int) + 3) + (totalMessageTokens rest : Int) := by
      simp only [totalMessageTokens, List.map_cons, List.sum_cons, messageTokens,
        count_tokens, encodeTokens]
      push_cast
      ring
    have hnover : ¬ (total + (((m.content.data.length : Int)) + 3) > maxT) := by
      have hrest : (0 : Int) ≤ (totalMessageTokens rest : Int) := by positivity
      omega
    simp only [truncGo, encodeTokens, if_neg hnover]
    rw [ih (total + (((m.content.data.length : Int)) + 3)) (by omega)]

/-- C4 — token budget invariant of `safe_truncate_messages`: for every
message history and every `max_prompt_tokens ≥ 0`, the result's total token
count (content tokens plus 3 per-message overhead, per message) is at most
`max_prompt_tokens`, and a history which already fits is returned unchanged. -/
theorem safe_truncate_messages_budget (msgs : List PlainMessage)
    (maxT : Int) (hmax : 0 ≤ maxT) :
    (totalMessageTokens (safe_truncate_messages msgs maxT) : Int) ≤ maxT ∧
      ((totalMessageTokens msgs : Int) ≤ maxT →
        safe_truncate_messages msgs maxT = msgs) := by
  constructor
  · have h := truncGo_total_le maxT msgs.reverse 0 hmax
    simpa [safe_truncate_messages, totalMessageTokens_reverse] using h
  · intro hfit
    have hfit' : (totalMessageTokens msgs.reverse : Int) + 0 ≤ maxT := by
      rw [totalMessageTokens_reverse]; omega
    simp [safe_truncate_messages, truncGo_fits maxT msgs.reverse 0 hfit']

/-- Witness for C4 at a concrete input. -/
theorem safe_truncate_messages_budget_witness :
    (totalMessageTokens (safe_truncate_messages [⟨"user", "hi"⟩] 50) : Int) ≤ 50 ∧
      ((totalMessageTokens [(⟨"user", "hi"⟩ : PlainMessage)] : Int) ≤ 50 →
        safe_truncate_messages [⟨"user", "hi"⟩] 50 = [⟨"user", "hi"⟩]) :=
  safe_truncate_messages_budget [⟨"user", "hi"⟩] 50 (by decide)

/-- Shared helper: whenever the budget exceeds 3 tokens, the truncation loop
keeps a (possibly token-tail-truncated) copy of the most recent message:
the last message of the chronological result has the most recent message's
role and a suffix of its token sequence as content. -/
lemma safe_truncate_messages_getLast (msgs : List PlainMessage) (mLast : PlainMessage)
    (maxT : Int) (hlast : msgs.getLast? = some mLast) (hbudget : 3 < maxT) :
    safe_truncate_messages msgs maxT ≠ [] ∧
      ∃ t, (safe_truncate_messages msgs maxT).getLast? = some ⟨mLast.role, t⟩ ∧
        t.data <:+ mLast.content.data := by
  have hrev : msgs.reverse.head? = some mLast := by
    rw [List.head?_reverse]; exact hlast
  obtain ⟨tl, htl⟩ : ∃ tl, msgs.reverse = mLast :: tl := by
    cases hr : msgs.reverse with
    | nil => rw [hr] at hrev; simp at hrev
    | cons a t =>
      rw [hr] at hrev
      simp only [List.head?_cons, Option.some.injEq] at hrev
      exact ⟨t, by rw [hrev]⟩
  unfold safe_truncate_messages
  rw [htl]
  by_cases hover : (0 : Int) + ((mLast.content.data.length : Int) + 3) > maxT
  · have hrem : (0 : Int) < maxT - 0 - 3 := by omega
    simp only [truncGo, encodeTokens, if_pos hover, if_pos hrem]
    refine ⟨by simp, decodeTokens (mLast.content.data.drop
      (mLast.content.data.length - (maxT - 0 - 3).toNat)), by simp, ?_⟩
    exact List.drop_suffix _ _
  · simp only [truncGo, encodeTokens, if_neg hover]
    constructor
    · simp
    · refine ⟨mLast.content, ?_, List.suffix_refl _⟩
      rw [List.reverse_cons, List.getLast?_concat]

/-- C5 (amended) — the most recent message is always included (possibly with
its content truncated to a token-tail) whenever `max_prompt_tokens > 3`;
for `max_prompt_tokens ≤ 0` the result is the empty list. -/
theorem safe_truncate_messages_recent (msgs : List PlainMessage) (maxT : Int)
    (mLast : PlainMessage) (hlast : msgs.getLast? = some mLast) :
    (3 < maxT →
      safe_truncate_messages msgs maxT ≠ [] ∧
        ∃ t, (safe_truncate_messages msgs maxT).getLast? = some ⟨mLast.role, t⟩ ∧
          t.data <:+ mLast.content.data) ∧
      (maxT ≤ 0 → safe_truncate_messages msgs maxT = []) := by
  constructor
  · intro hbudget
    exact safe_truncate_messages_getLast msgs mLast maxT hlast hbudget
  · intro hmax
    unfold safe_truncate_messages
    cases hr : msgs.reverse with
    | nil => simp [truncGo]
    | cons m tl =>
      have hover : (0 : Int) + ((m.content.data.length : Int) + 3) > maxT := by
        have : (0 : Int) ≤ (m.content.data.length : Int) := by positivity
        omega
      have hrem : ¬ ((0 : Int) < maxT - 0 - 3) := by omega
      simp only [truncGo, encodeTokens, if_pos hover, if_neg hrem]
      simp

/-- Witness for C5 (amended) at a concrete input: an 8-character message with
a budget of 5 is kept, truncated to the 2-character tail of its content. -/
theorem safe_truncate_messages_recent_witness :
    (safe_truncate_messages [⟨"user", "abcdefgh"⟩] 5 ≠ [] ∧
      ∃ t, (safe_truncate_messages [⟨"user", "abcdefgh"⟩] 5).getLast?
          = some ⟨"user", t⟩ ∧ t.data <:+ "abcdefgh".data) ∧
      safe_truncate_messages [⟨"user", "abcdefgh"⟩] 0 = [] :=
  ⟨(safe_truncate_messages_recent [⟨"user", "abcdefgh"⟩] 5
      ⟨"user", "abcdefgh"⟩ rfl).1 (by decide),
    (safe_truncate_messages_recent [⟨"user", "abcdefgh"⟩] 0
      ⟨"user", "abcdefgh"⟩ rfl).2 (by decide)⟩

/-- Counterexample to C5 as stated: with a single one-character message and
`max_prompt_tokens = 1 > 0`, `safe_truncate_messages` returns the empty
list — the most recent message is not included even though the budget is
positive (the claim asserts inclusion for every positive budget; inclusion
is in fact only guaranteed for budgets above 3). -/
theorem safe_truncate_messages_positive_budget_counterexample :
    (0 : Int) < 1 ∧ safe_truncate_messages [⟨"user", "A"⟩] 1 = [] := by
  refine ⟨by decide, ?_⟩
  rfl

/-! ## app/moderation.py — `ModerationController.evaluate`

The moderation classifier (`create_moderation`, an OpenAI API call) is a
collaborator: a function from the text to its reported category flags and
scores.  Python dicts preserve insertion order, so the category map is an
association list.  The moderation log (`storage/moderation_log.py`'s
`log_event`) is observed as the list of entries the call appends. -/

/-- `ModerationAction` from `app/config.py`. -/
inductive MAction
  | allow
  | block
  | flag
deriving DecidableEq

/-- `.value` of a `ModerationAction`. -/
def MAction.value : MAction → String
  | .allow => "allow"
  | .block => "block"
  | .flag => "flag"

/-- `ModerationPolicy` from `app/config.py`: a default action plus a
category → action mapping. -/
structure ModerationPolicy where
  default_action : MAction
  categories : List (String × MAction)
deriving DecidableEq

/-- `self.policy.categories.get(category, self.policy.default_action)`. -/
def policyAction (pol : ModerationPolicy) (category : String) : MAction :=
  (pol.categories.lookup category).getD pol.default_action

/-- What the classifier collaborator reports: `openai_result["categories"]`
and `openai_result["category_scores"]`. -/
structure ClassifierOut where
  categories : List (String × Bool)
  scores : List (String × Rat)

/-- `ModerationResult` from `app/moderation.py`. -/
structure ModerationResult where
  action : MAction
  flagged : Bool
  categories : List (String × Bool)
  scores : List (String × Rat)
  reason : Option String := none

/-- One `log_event(...)` append to the moderation log. -/
structure ModLogEvent where
  session_id : String
  category : String
  action : String
  text_snippet : String
  scores : List (String × Rat)
deriving DecidableEq

/-- The `for category, is_flagged in flagged_categories.items()` loop of
`evaluate` (`app/moderation.py`, lines 83–95), carried state
`(action, reason, allow_override)`; a `block` resolution breaks out. -/
def resolveLoop (pol : ModerationPolicy) :
    List (String × Bool) → MAction × Option String × Bool → MAction × Option String × Bool
  | [], acc => acc
  | (category, isFlagged) :: rest, (action, reason, allowOv) =>
    if !isFlagged then resolveLoop pol rest (action, reason, allowOv)
    else
      let policy_action := policyAction pol category
      if policy_action = .block then
        (.block, some ("Blocked by policy: " ++ category), allowOv)
      else
        let step :=
          if policy_action = .flag ∧ action ≠ .block then
            (MAction.flag, some ("Monitoring category: " ++ category))
          else (action, reason)
        resolveLoop pol rest (step.1, step.2, allowOv || decide (policy_action = .allow))

/-- `ModerationController.evaluate(session_id, text)` (lines 72–107),
returning the result together with the number of classifier calls made and
the moderation-log entries appended. -/
def moderation_evaluate (pol : ModerationPolicy) (classify : String → ClassifierOut)
    (session_id text : String) : ModerationResult × Nat × List ModLogEvent :=
  if pyStrip text = "" then (⟨.allow, false, [], [], none⟩, 0, [])
  else
    let out := classify text
    let flagged_categories := out.categories.filter (fun p => p.2)
    let flagged := flagged_categories.any (fun p => p.2)
    let st := resolveLoop pol flagged_categories (.allow, none, false)
    let finalSt :=
      if st.1 = .allow ∧ flagged ∧ st.2.2 = false then
        (pol.default_action,
          st.2.1.getD ("Default action applied (" ++ pol.default_action.value ++ ")"))
      else (st.1, st.2.1.getD "")
    let action := finalSt.1
    let reason : Option String :=
      if st.1 = .allow ∧ flagged ∧ st.2.2 = false then some finalSt.2 else st.2.1
    let logs :=
      if action ≠ .allow then
        [⟨session_id,
          (let joined := String.intercalate "," (flagged_categories.map (fun p => p.1));
            if joined = "" then "unknown" else joined),
          action.value, pyTake text 280, out.scores⟩]
      else []
    (⟨action, flagged, out.categories, out.scores, reason⟩, 1, logs)

lemma resolveLoop_block_iff (pol : ModerationPolicy) :
    ∀ (l : List (String × Bool)) (action : MAction) (reason : Option String) (ov : Bool),
      action ≠ .block →
      ((resolveLoop pol l (action, reason, ov)).1 = .block ↔
        ∃ p ∈ l, p.2 = true ∧ policyAction pol p.1 = .block) := by
  intro l
  induction l with
  | nil =>
    intro action reason ov hact
    simp [resolveLoop, hact]
  | cons p rest ih =>
    intro action reason ov hact
    obtain ⟨c, f⟩ := p
    cases f with
    | false =>
      simp only [resolveLoop, Bool.not_false, if_true]
      rw [ih action reason ov hact]
      constructor
      · rintro ⟨q, hq, h2, h3⟩
        exact ⟨q, List.mem_cons_of_mem _ hq, h2, h3⟩
      · rintro ⟨q, hq, h2, h3⟩
        rcases List.mem_cons.mp hq with h | h
        · rw [h] at h2; simp at h2
        · exact ⟨q, h, h2, h3⟩
    | true =>
      by_cases hb : policyAction pol c = .block
      · simp only [resolveLoop, Bool.not_true, Bool.false_eq_true, if_false, if_pos hb]
        constructor
        · intro _
          exact ⟨(c, true), List.mem_cons_self _ _, rfl, hb⟩
        · intro _
          trivial
      · simp only [resolveLoop, Bool.not_true, Bool.false_eq_true, if_false, if_neg hb]
        have hstep1 :
            (if policyAction pol c = .flag ∧ action ≠ .block then
              (MAction.flag, some ("Monitoring category: " ++ c))
            else (action, reason)).1 ≠ .block := by
          split
          · simp
          · exact hact
        rw [ih _ _ _ hstep1]
        constructor
        · rintro ⟨q, hq, h2, h3⟩
          exact ⟨q, List.mem_cons_of_mem _ hq, h2, h3⟩
        · rintro ⟨q, hq, h2, h3⟩
          rcases List.mem_cons.mp hq with h | h
          · rw [h] at h3; exact absurd h3 hb
          · exact ⟨q, h, h2, h3⟩

lemma resolveLoop_allow (pol : ModerationPolicy) :
    ∀ (l : List (String × Bool)) (action : MAction) (reason : Option String) (ov : Bool),
      (resolveLoop pol l (action, reason, ov)).1 = .allow →
      action = .allow ∧ (∀ p ∈ l, p.2 = true → policyAction pol p.1 = .allow) := by
  intro l
  induction l with
  | nil =>
    intro action reason ov h
    simp only [resolveLoop] at h
    exact ⟨h, by simp⟩
  | cons p rest ih =>
    intro action reason ov h
    obtain ⟨c, f⟩ := p
    cases f with
    | false =>
      simp only [resolveLoop, Bool.not_false, if_true] at h
      obtain ⟨h1, h2⟩ := ih action reason ov h
      refine ⟨h1, ?_⟩
      intro q hq hqf
      rcases List.mem_cons.mp hq with hh | hh
      · rw [hh] at hqf; simp at hqf
      · exact h2 q hh hqf
    | true =>
      by_cases hb : policyAction pol c = .block
      · simp only [resolveLoop, Bool.not_true, Bool.false_eq_true, if_false, if_pos hb] at h
        simp at h
      · simp only [resolveLoop, Bool.not_true, Bool.false_eq_true, if_false, if_neg hb] at h
        obtain ⟨h1, h2⟩ := ih _ _ _ h
        by_cases hfl : policyAction pol c = .flag ∧ action ≠ .block
        · rw [if_pos hfl] at h1
          simp at h1
        · rw [if_neg hfl] at h1
          have h1' : action = MAction.allow := h1
          have hcallow : policyAction pol c = .allow := by
            cases hpa : policyAction pol c with
            | allow => rfl
            | block => exact absurd hpa hb
            | flag =>
              exact absurd ⟨hpa, by rw [h1']; simp⟩ hfl
          refine ⟨h1', ?_⟩
          intro q hq hqf
          rcases List.mem_cons.mp hq with hh | hh
          · rw [hh]; exact hcallow
          · exact h2 q hh hqf

lemma resolveLoop_ov_true (pol : ModerationPolicy) :
    ∀ (l : List (String × Bool)) (action : MAction) (reason : Option String),
      (resolveLoop pol l (action, reason, true)).2.2 = true := by
  intro l
  induction l with
  | nil => intro action reason; rfl
  | cons p rest ih =>
    intro action reason
    obtain ⟨c, f⟩ := p
    cases f with
    | false =>
      simp only [resolveLoop, Bool.not_false, if_true]
      exact ih action reason
    | true =>
      by_cases hb : policyAction pol c = .block
      · simp [resolveLoop, hb]
      · simp only [resolveLoop, Bool.not_true, Bool.false_eq_true, if_false, if_neg hb,
          Bool.true_or]
        exact ih _ _

lemma resolveLoop_ov_of_allow_witness (pol : ModerationPolicy) :
    ∀ (l : List (String × Bool)) (action : MAction) (reason : Option String) (ov : Bool),
      (∃ p ∈ l, p.2 = true ∧ policyAction pol p.1 = .allow) →
      (resolveLoop pol l (action, reason, ov)).1 ≠ .block →
      (resolveLoop pol l (action, reason, ov)).2.2 = true := by
  intro l
  induction l with
  | nil =>
    rintro action reason ov ⟨q, hq, _⟩ _
    simp at hq
  | cons p rest ih =>
    rintro action reason ov ⟨q, hq, hqf, hqa⟩ hnb
    obtain ⟨c, f⟩ := p
    cases f with
    | false =>
      simp only [resolveLoop, Bool.not_false, if_true] at hnb ⊢
      rcases List.mem_cons.mp hq with hh | hh
      · rw [hh] at hqf; simp at hqf
      · exact ih action reason ov ⟨q, hh, hqf, hqa⟩ hnb
    | true =>
      by_cases hb : policyAction pol c = .block
      · simp only [resolveLoop, Bool.not_true, Bool.false_eq_true, if_false, if_pos hb]
          at hnb
        simp at hnb
      · simp only [resolveLoop, Bool.not_true, Bool.false_eq_true, if_false, if_neg hb]
          at hnb ⊢
        by_cases hca : policyAction pol c = .allow
        · have : (ov || decide (policyAction pol c = .allow)) = true := by
            rw [hca]; simp
          rw [this]
          exact resolveLoop_ov_true pol rest _ _
        · rcases List.mem_cons.mp hq with hh | hh
          · rw [hh] at hqa; exact absurd hqa hca
          · exact ih _ _ _ ⟨q, hh, hqf, hqa⟩ hnb

/-- C6 — block dominance of `ModerationController.evaluate`: for every
moderation policy and classifier result (i.e. whenever the classifier is
consulted, which is exactly when the text is not pure whitespace), the
returned action is `block` if and only if at least one flagged category
resolves — via its explicit policy entry, or `default_action` when absent —
to `block`, no matter how many other flagged categories resolve to `allow`
or `flag`. -/
theorem moderation_evaluate_block_iff (pol : ModerationPolicy)
    (classify : String → ClassifierOut) (session_id text : String)
    (htext : pyStrip text ≠ "") :
    ((moderation_evaluate pol classify session_id text).1.action = .block ↔
      ∃ p ∈ (classify text).categories, p.2 = true ∧ policyAction pol p.1 = .block) := by
  unfold moderation_evaluate
  rw [if_neg htext]
  simp only
  set L := (classify text).categories.filter (fun p => p.2) with hL
  have hmemL : ∀ p, p ∈ L ↔ p ∈ (classify text).categories ∧ p.2 = true := by
    intro p
    rw [hL, List.mem_filter]
  have hRHS : (∃ p ∈ L, p.2 = true ∧ policyAction pol p.1 = .block) ↔
      (∃ p ∈ (classify text).categories, p.2 = true ∧ policyAction pol p.1 = .block) := by
    constructor
    · rintro ⟨q, hq, h2, h3⟩
      exact ⟨q, ((hmemL q).mp hq).1, h2, h3⟩
    · rintro ⟨q, hq, h2, h3⟩
      exact ⟨q, (hmemL q).mpr ⟨hq, h2⟩, h2, h3⟩
  rw [← hRHS]
  by_cases hcond : (resolveLoop pol L (.allow, none, false)).1 = .allow ∧
      (L.any (fun p => p.2)) = true ∧
      (resolveLoop pol L (.allow, none, false)).2.2 = false
  · exfalso
    obtain ⟨hall, hfl, hov⟩ := hcond
    obtain ⟨q, hq, hq2⟩ := List.any_eq_true.mp hfl
    have hwit : policyAction pol q.1 = .allow :=
      (resolveLoop_allow pol L .allow none false hall).2 q hq hq2
    have := resolveLoop_ov_of_allow_witness pol L .allow none false
      ⟨q, hq, hq2, hwit⟩ (by rw [hall]; simp)
    rw [this] at hov
    simp at hov
  · rw [if_neg hcond]
    exact resolveLoop_block_iff pol L .allow none false (by simp)

/-- Witness for C6: the literal scenario — policy `{"hate": block}` with
default `flag`, classifier flags `hate` on "I hate you" — yields `block`. -/
theorem moderation_evaluate_block_iff_witness :
    (moderation_evaluate ⟨.flag, [("hate", .block)]⟩
        (fun _ => ⟨[("hate", true)], [("hate", (97 : Rat) / 100)]⟩)
        "s1" "I hate you").1.action = .block :=
  (moderation_evaluate_block_iff ⟨.flag, [("hate", .block)]⟩
      (fun _ => ⟨[("hate", true)], [("hate", (97 : Rat) / 100)]⟩)
      "s1" "I hate you" (by decide)).mpr
    ⟨("hate", true), by simp, rfl, rfl⟩

/-- C10 — whitespace shortcut of `ModerationController.evaluate`: for every
session and every text that is empty or whitespace-only, the result is
`allow` with `flagged = false` and empty category/score maps, the
classifier is called zero times, and nothing is appended to the moderation
log. -/
theorem moderation_evaluate_whitespace (pol : ModerationPolicy)
    (classify : String → ClassifierOut) (session_id text : String)
    (htext : pyStrip text = "") :
    moderation_evaluate pol classify session_id text
      = (⟨.allow, false, [], [], none⟩, 0, []) := by
  unfold moderation_evaluate
  rw [if_pos htext]

/-- Witness for C10 on the whitespace-only text `"  "`. -/
theorem moderation_evaluate_whitespace_witness :
    moderation_evaluate ⟨.flag, [("hate", .block)]⟩
        (fun _ => ⟨[("hate", true)], []⟩) "s1" "  "
      = (⟨.allow, false, [], [], none⟩, 0, []) :=
  moderation_evaluate_whitespace ⟨.flag, [("hate", .block)]⟩
    (fun _ => ⟨[("hate", true)], []⟩) "s1" "  " (by decide)

/-! ## app/router.py — `select_model` and `_derive_tools` -/

/-- `Attachment` from `app/state.py` (the `metadata` dict is omitted; only
`type` is consulted by the router and orchestrator). -/
structure Attachment where
  name : String
  type : String
  path : Option String := none
  url : Option String := none
deriving DecidableEq

/-- `TECH_KEYWORDS` (matched by substring containment in the lowered text). -/
def TECH_KEYWORDS : List String :=
  ["refactor", "big o", "complexity", "optimize", "benchmark", "architecture",
    "kubernetes", "neural", "machine learning", "deploy", "sql", "query",
    "regex", "debug"]

/-- `CODE_PATTERNS` — the four regexes are all literal substrings. -/
def CODE_PATTERNS : List String := ["```", "def ", "class ", "import "]

/-- `_contains_code(text)`: any code pattern occurs, or both `";"` and a
left brace occur. -/
def contains_code (text : String) : Bool :=
  CODE_PATTERNS.any (fun p => pyContains text p) ||
    (pyContains text ";" && pyContains text "\x7b")

/-- `RoutingContext` from `app/router.py`. -/
structure RoutingContext where
  text : String
  persona_names : List String
  attachments : List Attachment
  history_message_count : Nat
  override_model : Option String := none
  force_vision : Bool := false
  force_lightweight : Bool := false
  temperature : Rat := 7/10
deriving DecidableEq

/-- `ModelChoice` from `app/router.py`. -/
structure ModelChoice where
  model : String
  reason : String
  tools : List String
deriving DecidableEq

/-- The settings fields consulted by the routing and orchestration code
(`app/config.py`, `Settings`). -/
structure Settings where
  default_model : String := "gpt-4o-mini"
  vision_model : String := "gpt-4o-mini"
  gpt5_model : String := "gpt-5"
  max_output_tokens : Nat := 1024
deriving DecidableEq

/-- `_derive_tools(context, model)` — the `model` argument is accepted and
ignored, as in the source. -/
def derive_tools (context : RoutingContext) (_model : String) : List String :=
  (if context.attachments.any (fun a => ["pdf", "csv", "txt", "code"].contains a.type)
    then ["file_qna"] else [])
  ++ (if context.attachments.any (fun a => a.type == "image") then ["vision"] else [])
  ++ (if contains_code (pyLower context.text) then ["code"] else [])
  ++ (if context.text.length > 280 then ["search"] else [])

/-- The `persona_map` dict literal inside `select_model`. -/
def persona_map (settings : Settings) (name : String) : Option String :=
  if name = "Ashley" then some settings.default_model
  else if name = "Python Expert" then some "deepseek-coder"
  else if name = "NSFW" then some "undiopenhermes"
  else if name = "Platypus" then some "platypus2-13b-gptq"
  else if name = "OpenHermes" then some "openhermes-2.5-mistral-7b-gptq"
  else if name = "NousHermes" then some "nous-hermes-2-mistral-7b-gptq"
  else if name = "ChronosHermes" then some "chronos-hermes-13b-gptq"
  else if name = "UndiPlatypus" then some "undiplatypus2-13b-gptq"
  else none

/-- The `for persona in context.persona_names` scan: first persona present
in `persona_map` wins. -/
def firstPersonaModel (settings : Settings) : List String → Option (String × String)
  | [] => none
  | p :: rest =>
    match persona_map settings p with
    | some m => some (p, m)
    | none => firstPersonaModel settings rest

/-- `select_model(context)` (`app/router.py`, lines 60–110). -/
def select_model (settings : Settings) (context : RoutingContext) : ModelChoice :=
  if (context.override_model.getD "") ≠ "" then
    { model := context.override_model.getD "", reason := "User override",
      tools := derive_tools context (context.override_model.getD "") }
  else
    let text_lower := pyLower context.text
    let needs_vision := context.force_vision
      || context.attachments.any (fun a => a.type == "image")
    let has_code := contains_code text_lower
    let contains_tech := TECH_KEYWORDS.any (fun k => pyContains text_lower k)
    let long_input := text_lower.length > 200 || context.history_message_count > 20
    let advanced_persona := context.persona_names.any
      (fun n => ["ml_ai_prompt", "hybrid", "csharp_dotnet_prompt"].contains (pyLower n))
    match firstPersonaModel settings context.persona_names with
    | some pm =>
      { model := pm.2, reason := "Persona-based routing: " ++ pm.1,
        tools := derive_tools context pm.2 }
    | none =>
      let choice :=
        if needs_vision then (settings.vision_model, "Vision request")
        else if context.force_lightweight then
          (settings.default_model, "Forced lightweight mode")
        else if has_code || contains_tech || advanced_persona then
          ((if settings.gpt5_model ≠ "" then settings.gpt5_model else "gpt-4o"),
            "Technical content detected")
        else if long_input then ("gpt-4o", "Long input or history")
        else (settings.default_model, "Default routing")
      { model := choice.1, reason := choice.2, tools := derive_tools context choice.1 }

/-- C7 — override precedence of `select_model`: for every routing context
with a non-empty `override_model`, the chosen model is exactly the
override — irrespective of persona mappings, attachments, code/tech
heuristics or input length — and the tool set is still derived
independently from the content heuristics (`_derive_tools`). -/
theorem select_model_override (settings : Settings) (context : RoutingContext)
    (m : String) (hov : context.override_model = some m) (hm : m ≠ "") :
    select_model settings context
      = { model := m, reason := "User override", tools := derive_tools context m } := by
  unfold select_model
  rw [hov]
  simp only [Option.getD_some]
  rw [if_pos hm]

/-- A context whose heuristics would pick a different model (code markers
present, a persona with a forced model), but with an explicit override. -/
def overrideContextExample : RoutingContext :=
  { text := "def f(): pass", persona_names := ["Python Expert"],
    attachments := [], history_message_count := 0,
    override_model := some "my-model" }

/-- Witness for C7 at `overrideContextExample`. -/
theorem select_model_override_witness :
    select_model {} overrideContextExample
      = { model := "my-model", reason := "User override",
          tools := derive_tools overrideContextExample "my-model" } :=
  select_model_override {} overrideContextExample "my-model" rfl (by decide)

/-! ## tools/search.py, tools/code_executor.py and
`ChatOrchestrator._tool_context` (`app/orchestrator.py`, lines 47–87)

`web_search` is an external collaborator (network providers); it is a
function `query → provider → max_results → Except error hits`.  The
sandboxed code executor runs in a separate OS process; its *result record*
is modelled (`CodeExecutionResult`), execution itself is a collaborator.
`format_result` is embedded from `tools/code_executor.py` (its
`textwrap.dedent` is the identity there because the first line of the
formatted string has no leading whitespace). -/

/-- `SearchResult` from `tools/search.py`. -/
structure SearchHit where
  title : String
  url : String
  snippet : String
deriving DecidableEq

/-- One `web_search(query, provider=..., max_results=...)` invocation. -/
structure SearchCall where
  query : String
  provider : String
  max_results : Nat
deriving DecidableEq

/-- The bullet line `f"- {item.title}: {item.snippet} ({item.url})"`. -/
def formatSearchHit (h : SearchHit) : String :=
  "- " ++ h.title ++ ": " ++ h.snippet ++ " (" ++ h.url ++ ")"

/-- `CodeExecutionResult` from `tools/code_executor.py`; the
`globals_snapshot` dict is an association list whose value is `some html`
when the value is a pandas DataFrame (rendered by the `dataframe_to_html`
collaborator) and `none` otherwise. -/
structure CodeExecResult where
  stdout : String
  stderr : String
  error : Option String
  timeout : Bool
  globals_snapshot : List (String × Option String)
deriving DecidableEq

/-- `format_result(result)` from `tools/code_executor.py`. -/
def format_result (r : CodeExecResult) : String :=
  if r.timeout then "Execution timed out."
  else if r.error.getD "" ≠ "" then
    pyStrip ("Execution error: " ++ r.error.getD "" ++ "\nStdout:\n" ++ r.stdout
      ++ "\nStderr:\n" ++ r.stderr)
  else
    let output := pyStrip r.stdout
    let stderr := pyStrip r.stderr
    let output := if stderr ≠ "" then output ++ "\nWarnings:\n" ++ stderr else output
    if output ≠ "" then output else "(no output)"

/-- Python `s.find(pat)` scan from the left. -/
def firstOccAux (needle : List Char) : List Char → Nat → Option Nat
  | [], i => if needle.isEmpty then some i else none
  | c :: t, i => if needle.isPrefixOf (c :: t) then some i else firstOccAux needle t (i + 1)

/-- Python `s.find(pat)`: first occurrence index, `-1` if absent. -/
def pyFind (s pat : String) : Int :=
  match firstOccAux pat.data s.data 0 with
  | some n => (n : Int)
  | none => -1

/-- Python `s.rfind(pat)`: last occurrence index, `-1` if absent. -/
def pyRfind (s pat : String) : Int :=
  match ((List.range (s.data.length + 1)).filter
      (fun i => pat.data.isPrefixOf (s.data.drop i))).getLast? with
  | some n => (n : Int)
  | none => -1

/-- Python `s[a:b]` for nonnegative bounds. -/
def pySlice (s : String) (a b : Nat) : String :=
  String.mk ((s.data.drop a).take (b - a))

/-- The search half of `_tool_context` (lines 50–66): the section lines (a
singleton when the branch appends a section) together with the
`web_search` calls issued. -/
def searchSectionOf (search : String → String → Nat → Except String (List SearchHit))
    (provider userText : String) (tools : List String) :
    List String × List SearchCall :=
  if "search" ∈ tools then
    let trimmed := pyStrip userText
    let query : Option String :=
      if pyStartsWith trimmed "/search" then
        some (if pyStrip (pyDrop trimmed 7) ≠ "" then pyStrip (pyDrop trimmed 7)
          else userText)
      else if userText.length > 220 then some userText
      else none
    match query with
    | some q =>
      if q ≠ "" then
        -- `web_search(query, provider=state.search_provider, max_results=4)`;
        -- a raised exception is caught and degrades to `results = []`.
        let results := match search q provider 4 with
          | .ok r => r
          | .error _ => []
        if results ≠ [] then
          ([String.intercalate "\n"
            (["# Web Search", "Query: " ++ q] ++ results.map formatSearchHit)],
            [⟨q, provider, 4⟩])
        else ([], [⟨q, provider, 4⟩])
      else ([], [])
    | none => ([], [])
  else ([], [])

/-- The code-execution half of `_tool_context` (lines 67–86). -/
def codeSectionOf (runCode : String → CodeExecResult) (userText : String)
    (tools : List String) : List String :=
  let trimmed := pyStrip userText
  if "code" ∈ tools ∧ pyStartsWith trimmed "!run" then
    let code0 := pyStrip (pyDrop trimmed 4)
    let code :=
      if code0 = "" ∧ pyContains userText "```" then
        pyStrip (pySlice userText ((pyFind userText "```").toNat + 3)
          (pyRfind userText "```").toNat)
      else code0
    if code ≠ "" then
      let result := runCode code
      let lines := ["# Code Execution", "```text", format_result result, "```"]
        ++ result.globals_snapshot.foldr
          (fun p acc => match p.2 with
            | some html => ("## DataFrame: " ++ p.1) :: html :: acc
            | none => acc) []
      [String.intercalate "\n" lines]
    else []
  else []

/-- `_tool_context(state, user_text, tools)`: the two sections (search first)
joined by blank lines, plus the search calls issued. -/
def tool_context (search : String → String → Nat → Except String (List SearchHit))
    (runCode : String → CodeExecResult) (provider userText : String)
    (tools : List String) : String × List SearchCall :=
  let s := searchSectionOf search provider userText tools
  (String.intercalate "\n\n" (s.1 ++ codeSectionOf runCode userText tools), s.2)

lemma pyStartsWith_search_not_run (u : String)
    (h : pyStartsWith u "/search" = true) : pyStartsWith u "!run" = false := by
  unfold pyStartsWith at h ⊢
  have e7 : "/search".data = '/' :: "search".data := rfl
  have e4 : "!run".data = '!' :: "run".data := rfl
  rw [e7] at h
  rw [e4]
  cases hu : u.data with
  | nil =>
    rw [hu] at h
    simp [List.isPrefixOf] at h
  | cons c t =>
    rw [hu] at h
    simp only [List.isPrefixOf, Bool.and_eq_true, beq_iff_eq] at h
    obtain ⟨hc, -⟩ := h
    rw [← hc]
    simp [List.isPrefixOf]

/-- C8 (amended) — the `/search` command in `_tool_context`: whenever the
`search` tool is among the enabled tools (which the router only derives for
texts longer than 280 characters) and the stripped user text begins with
`/search` followed by a non-empty query, the builder invokes the search
collaborator exactly once with that query (provider from the session,
`max_results = 4`) and formats the returned hits as a bulleted list with
title, snippet and URL under a `# Web Search` header. -/
theorem tool_context_search_command
    (search : String → String → Nat → Except String (List SearchHit))
    (runCode : String → CodeExecResult) (provider userText : String)
    (tools : List String) (q : String) (hits : List SearchHit)
    (hs : "search" ∈ tools)
    (ht : pyStartsWith (pyStrip userText) "/search" = true)
    (hq : pyStrip (pyDrop (pyStrip userText) 7) = q) (hq' : q ≠ "")
    (hcall : search q provider 4 = .ok hits) (hh : hits ≠ []) :
    tool_context search runCode provider userText tools
      = (String.intercalate "\n"
          (["# Web Search", "Query: " ++ q] ++ hits.map formatSearchHit),
        [⟨q, provider, 4⟩]) := by
  have hrun := pyStartsWith_search_not_run (pyStrip userText) ht
  unfold tool_context searchSectionOf codeSectionOf
  rw [if_pos hs]
  simp only [ht, if_true, hq]
  rw [if_pos hq']
  rw [if_pos hq']
  rw [hcall]
  rw [if_pos hh]
  have hcodeneg : ¬ ("code" ∈ tools ∧ pyStartsWith (pyStrip userText) "!run" = true) := by
    rintro ⟨-, hr⟩
    rw [hrun] at hr
    exact Bool.false_ne_true hr
  rw [if_neg hcodeneg]
  rfl

/-- Witness for C8 (amended): a long `/search` command (301 characters, so
the router's derived tools contain `search`), two hits returned. -/
def longSearchText : String :=
  "/search " ++ String.mk (List.replicate 293 'x')

/-- The two hits returned by the stub search collaborator in the witness. -/
def witnessHits : List SearchHit :=
  [⟨"T1", "https://one.example", "S1"⟩, ⟨"T2", "https://two.example", "S2"⟩]

/-- Routing context for the witness text. -/
def longSearchContext : RoutingContext :=
  { text := longSearchText, persona_names := ["general"],
    attachments := [], history_message_count := 0 }

set_option maxRecDepth 100000 in
/-- Witness for C8 (amended) at `longSearchText`. -/
theorem tool_context_search_command_witness :
    tool_context (fun _ _ _ => .ok witnessHits) (fun _ => ⟨"", "", none, false, []⟩)
        "auto" longSearchText
        (derive_tools longSearchContext "gpt-4o-mini")
      = (String.intercalate "\n"
          (["# Web Search", "Query: " ++ String.mk (List.replicate 293 'x')]
            ++ witnessHits.map formatSearchHit),
        [⟨String.mk (List.replicate 293 'x'), "auto", 4⟩]) :=
  tool_context_search_command (fun _ _ _ => .ok witnessHits)
    (fun _ => ⟨"", "", none, false, []⟩) "auto" longSearchText _
    (String.mk (List.replicate 293 'x')) witnessHits
    (by decide) (by decide) (by decide) (by decide) rfl (by decide)

/-- Counterexample to C8 as stated: for the short command `"/search cats"`
the router derives no `search` tool (the text is not longer than 280
characters), so `_tool_context` never invokes the search collaborator at
all — no call is recorded and the produced context is empty, even though
the text begins with `/search` followed by the query `cats` and the
collaborator would have returned a hit. -/
def shortSearchContext : RoutingContext :=
  { text := "/search cats", persona_names := ["general"],
    attachments := [], history_message_count := 0 }

theorem tool_context_search_command_counterexample :
    pyStartsWith (pyStrip "/search cats") "/search" = true ∧
      pyStrip (pyDrop (pyStrip "/search cats") 7) = "cats" ∧
      (tool_context (fun _ _ _ => .ok [⟨"Cats", "https://cats.example", "About cats"⟩])
          (fun _ => ⟨"", "", none, false, []⟩) "auto" "/search cats"
          (derive_tools shortSearchContext "gpt-4o-mini")).2 = [] ∧
      (tool_context (fun _ _ _ => .ok [⟨"Cats", "https://cats.example", "About cats"⟩])
          (fun _ => ⟨"", "", none, false, []⟩) "auto" "/search cats"
          (derive_tools shortSearchContext "gpt-4o-mini")).1 = "" := by
  decide

/-! ## `ChatOrchestrator._prepare_messages` (`app/orchestrator.py`,
lines 105–149) -/

/-- One typed content block `{"type": ..., "text": ...}`. -/
structure ContentBlock where
  type : String
  text : String
deriving DecidableEq

/-- One formatted prompt message `{"role": ..., "content": [...]}`. -/
structure PromptMessage where
  role : String
  content : List ContentBlock
deriving DecidableEq

/-- Formatting of one truncated history message (lines 140–148):
`assistant` turns get `output_text`, every other role `input_text`. -/
def formatHistoryMessage (m : PlainMessage) : PromptMessage :=
  ⟨m.role, [⟨if m.role = "assistant" then "output_text" else "input_text", m.content⟩]⟩

/-- `_prepare_messages(state, user_text, context_text, memory_text, model)`:
persona/system block first (even when the persona bundle is empty), then
the context block if non-empty, the memory block if non-empty, then the
token-budgeted history (`state.messages` with the current user turn
appended, through `safe_truncate_messages`). -/
def prepare_messages (personaContext : String) (stateMessages : List PlainMessage)
    (userText contextText memoryText : String) (maxPromptTokens : Int) :
    List PromptMessage :=
  let historyPlain := stateMessages ++ [⟨"user", userText⟩]
  let truncated := safe_truncate_messages historyPlain maxPromptTokens
  ([⟨"system", [⟨"input_text", personaContext⟩]⟩]
    ++ (if contextText ≠ "" then [⟨"system", [⟨"input_text", contextText⟩]⟩] else [])
    ++ (if memoryText ≠ "" then [⟨"system", [⟨"input_text", memoryText⟩]⟩] else []))
  ++ truncated.map formatHistoryMessage

/-- C9 — prompt structure of `_prepare_messages`: the built prompt is the
persona/system block (always present, `input_text`, even for an empty
persona), then the context block exactly when non-empty, then the memory
block exactly when non-empty, then the token-budgeted chronological
history; the prompt ends with the current user turn (its content a
token-tail of the user text), and history turns use `output_text` exactly
for the `assistant` role and `input_text` for every other role.  The
hypothesis `3 < maxPromptTokens` holds for the orchestrator's budget
`min(6000, 4 * max_output_tokens)` whenever `max_output_tokens ≥ 1`. -/
theorem prepare_messages_structure (personaContext : String)
    (stateMessages : List PlainMessage) (userText contextText memoryText : String)
    (maxPromptTokens : Int) (hbudget : 3 < maxPromptTokens) :
    ∃ t : String, t.data <:+ userText.data ∧
      prepare_messages personaContext stateMessages userText contextText memoryText
          maxPromptTokens
        = [⟨"system", [⟨"input_text", personaContext⟩]⟩]
          ++ (if contextText ≠ "" then [⟨"system", [⟨"input_text", contextText⟩]⟩] else [])
          ++ (if memoryText ≠ "" then [⟨"system", [⟨"input_text", memoryText⟩]⟩] else [])
          ++ (safe_truncate_messages (stateMessages ++ [⟨"user", userText⟩])
              maxPromptTokens).map formatHistoryMessage ∧
      (prepare_messages personaContext stateMessages userText contextText memoryText
          maxPromptTokens).getLast? = some ⟨"user", [⟨"input_text", t⟩]⟩ ∧
      ∀ pm ∈ (safe_truncate_messages (stateMessages ++ [⟨"user", userText⟩])
          maxPromptTokens).map formatHistoryMessage,
        ∀ cb ∈ pm.content, (cb.type = "output_text" ↔ pm.role = "assistant") := by
  have hlastin : (stateMessages ++ [(⟨"user", userText⟩ : PlainMessage)]).getLast?
      = some ⟨"user", userText⟩ := List.getLast?_concat _
  obtain ⟨hne, t, hget, hsuf⟩ := safe_truncate_messages_getLast
    (stateMessages ++ [⟨"user", userText⟩]) ⟨"user", userText⟩ maxPromptTokens
    hlastin hbudget
  refine ⟨t, hsuf, ?_, ?_, ?_⟩
  · simp [prepare_messages, List.append_assoc]
  · have hmapne : (safe_truncate_messages (stateMessages ++ [⟨"user", userText⟩])
        maxPromptTokens).map formatHistoryMessage ≠ [] := by
      simpa using hne
    unfold prepare_messages
    rw [List.getLast?_append_of_ne_nil _ hmapne, List.getLast?_map, hget]
    simp [formatHistoryMessage]
  · intro pm hpm cb hcb
    obtain ⟨m, hm, hfm⟩ := List.mem_map.mp hpm
    rw [← hfm] at hcb ⊢
    simp only [formatHistoryMessage, List.mem_singleton] at hcb
    rw [hcb]
    by_cases hrole : m.role = "assistant"
    · simp [formatHistoryMessage, hrole]
    · simp only [formatHistoryMessage, if_neg hrole]
      constructor
      · intro hco
        exact absurd hco (by decide)
      · intro hro
        exact absurd hro hrole

/-- Witness for C9 at a concrete state: a two-turn history with an
assistant turn, non-empty context, empty memory, budget 4096. -/
theorem prepare_messages_structure_witness :
    ∃ t : String, t.data <:+ "thanks!".data ∧
      prepare_messages "You are Ashley" [⟨"user", "hi"⟩, ⟨"assistant", "hello"⟩]
          "thanks!" "# Web Search" "" 4096
        = [⟨"system", [⟨"input_text", "You are Ashley"⟩]⟩]
          ++ (if ("# Web Search" : String) ≠ "" then
              [⟨"system", [⟨"input_text", "# Web Search"⟩]⟩] else [])
          ++ (if ("" : String) ≠ "" then [⟨"system", [⟨"input_text", ""⟩]⟩] else [])
          ++ (safe_truncate_messages
              ([⟨"user", "hi"⟩, ⟨"assistant", "hello"⟩] ++ [⟨"user", "thanks!"⟩])
              4096).map formatHistoryMessage ∧
      (prepare_messages "You are Ashley" [⟨"user", "hi"⟩, ⟨"assistant", "hello"⟩]
          "thanks!" "# Web Search" "" 4096).getLast?
        = some ⟨"user", [⟨"input_text", t⟩]⟩ ∧
      ∀ pm ∈ (safe_truncate_messages
          ([⟨"user", "hi"⟩, ⟨"assistant", "hello"⟩] ++ [⟨"user", "thanks!"⟩])
          4096).map formatHistoryMessage,
        ∀ cb ∈ pm.content, (cb.type = "output_text" ↔ pm.role = "assistant") :=
  prepare_messages_structure "You are Ashley" [⟨"user", "hi"⟩, ⟨"assistant", "hello"⟩]
    "thanks!" "# Web Search" "" 4096 (by decide)

/-! ## `ChatOrchestrator.stream_reply` (`app/orchestrator.py`, lines 159–328)

The turn pipeline.  Collaborator behaviour is an input; the observable
effects (session-log appends, `state.last_error`, the calls issued to the
sync-completion, search and retrieval collaborators, moderation-log
appends, the built prompt) are returned in a `TurnResult` record.

A Python-semantics point that the model encodes: `stream_response` in
`tools/openai_client.py` is a *generator function* (its body contains
`yield`), so the call `stream_response(...)` at line 277 merely constructs
the generator and can never raise — the `except` at line 286 (the
synchronous `complete_response` fallback, which also sets
`state.last_error` when the fallback itself fails) is unreachable.  All
stream errors, including stream establishment, surface at `next(stream)`
inside the loop at lines 318–322, whose `except` clause catches only
`StopIteration`; any other exception propagates out of the generator with
no fallback call and `state.last_error` still `None` (it was cleared at
line 167).  The stream collaborator is therefore a list of yielded chunks
plus a final `Except`: `StopIteration`-with-payload (`.ok`) or a raised
error (`.error`). -/

/-- `TokenCount` from `tools/tokenizer.py`. -/
structure TokenCount where
  prompt_tokens : Nat
  completion_tokens : Nat := 0
deriving DecidableEq

/-- `_MODEL_COSTS` (USD per 1M tokens, prompt and completion), with the
`.get(model, _MODEL_COSTS.get("gpt-4o-mini"))` fallback. -/
def modelCostInfo (model : String) : Rat × Rat :=
  if model = "gpt-5" then (120, 120)
  else if model = "gpt-4o" then (5, 15)
  else if model = "gpt-4o-mini" then (1/2, 3/2)
  else if model = "gpt-3.5-turbo" then (1, 2)
  else (1/2, 3/2)

/-- `TokenCount.cost_usd(model)`. -/
def TokenCount.cost_usd (tc : TokenCount) (model : String) : Rat :=
  (tc.prompt_tokens : Rat) / 1000000 * (modelCostInfo model).1
    + (tc.completion_tokens : Rat) / 1000000 * (modelCostInfo model).2

/-- `StreamResult` from `tools/openai_client.py`. -/
structure StreamResult where
  text : String
  usage : TokenCount
  response_id : String
deriving DecidableEq

/-- The `ChatState` fields consulted and mutated by `stream_reply`
(`app/state.py`; generation parameters are `Rat`, the remaining fields are
not read by the core pipeline). -/
structure ChatState where
  session_id : String
  persona_names : List String
  model_override : Option String := none
  active_model : String := "gpt-4o-mini"
  temperature : Rat := 7/10
  top_p : Rat := 1
  frequency_penalty : Rat := 0
  presence_penalty : Rat := 0
  messages : List PlainMessage := []
  attachments : List Attachment := []
  memory_enabled : Bool := true
  moderation_enabled : Bool := true
  last_error : Option String := none
  search_provider : String := "auto"

/-- The collaborators `stream_reply` interacts with, as behaviour records
(the memory-store and usage-ledger writes performed by the pipeline are
fire-and-forget from the orchestrator's view and are not observed here). -/
structure Collaborators where
  classify : String → ClassifierOut
  persona_bundle : List String → String
  fileqa_build_context : String → String → Except String String
  web_search : String → String → Nat → Except String (List SearchHit)
  run_code : String → CodeExecResult
  short_term : String → List PlainMessage
  long_term_hits : String → List String
  stream_chunks : List String
  stream_final : Except String StreamResult
  complete : Except String StreamResult

/-- `_memory_context(state, user_text)` (lines 89–103): short-term tail
(last 5) and long-term hits, each section only when non-empty. -/
def memory_context (shortTerm : List PlainMessage) (searchHits : List String)
    (memoryEnabled : Bool) : String :=
  if !memoryEnabled then ""
  else
    let lines1 :=
      if shortTerm ≠ [] then
        ["# Short Term Memory"]
          ++ (shortTerm.drop (shortTerm.length - 5)).map
            (fun it => "- " ++ it.role ++ ": " ++ it.content)
      else []
    let lines2 :=
      if searchHits ≠ [] then
        ["# Long Term Memory"] ++ searchHits.map (fun h => "- " ++ h)
      else []
    String.intercalate "\n" (lines1 ++ lines2)

/-- `_handle_moderation` (lines 151–157) without the raise: disabled
moderation short-circuits to `allow` with empty maps and no classifier
call; otherwise `evaluate_text` runs. -/
def moderation_step (pol : ModerationPolicy) (classify : String → ClassifierOut)
    (moderationEnabled : Bool) (session_id text : String) :
    ModerationResult × Nat × List ModLogEvent :=
  if moderationEnabled then moderation_evaluate pol classify session_id text
  else (⟨.allow, false, [], [], none⟩, 0, [])

/-- Modelled from the spec: `build_routing_context` is imported by the
orchestrator from `app.router` but absent from the provided sources (only
its caller at `app/orchestrator.py` line 171 appears).  Per §4.3 the router
consumes a routing context of exactly these inputs, so the function is
modelled as the evident `RoutingContext` constructor over the keyword
arguments the orchestrator passes (`force_lightweight` keeps its dataclass
default `False`). -/
def build_routing_context (text : String) (personaNames : List String)
    (attachments : List Attachment) (historyMessageCount : Nat)
    (overrideModel : Option String) (forceVision : Bool) (temperature : Rat) :
    RoutingContext :=
  { text := text, persona_names := personaNames, attachments := attachments,
    history_message_count := historyMessageCount, override_model := overrideModel,
    force_vision := forceVision, temperature := temperature }

/-- The final turn summary (the generator's return payload, lines 264–273). -/
structure TurnSummary where
  model : String
  moderation : String
  tools : List String
  prompt_tokens : Nat
  completion_tokens : Nat
  cost_usd : Rat
deriving DecidableEq

/-- How a turn fails: a `ModerationError` raised by `_handle_moderation`,
or any other exception propagating out of `stream_reply` / its generator. -/
inductive TurnError where
  | moderationBlocked (reason : Option String)
  | exn (message : String)
deriving DecidableEq

instance {ε α : Type} [DecidableEq ε] [DecidableEq α] : DecidableEq (Except ε α) :=
  fun a b =>
    match a, b with
    | .ok x, .ok y => decidable_of_iff (x = y) (by simp)
    | .error x, .error y => decidable_of_iff (x = y) (by simp)
    | .ok _, .error _ => isFalse (by simp)
    | .error _, .ok _ => isFalse (by simp)

/-- Observable result of one `stream_reply` turn: the outcome (fragments
yielded plus summary, or the propagated error) together with the effects. -/
structure TurnResult where
  outcome : Except TurnError (List String × TurnSummary)
  session_log : List PlainMessage
  state_messages : List PlainMessage
  active_model : String
  last_error : Option String
  complete_calls : Nat
  search_calls : List SearchCall
  fileqa_calls : Nat
  moderation_log : List ModLogEvent
  context_text : String
  prompt_messages : List PromptMessage
deriving DecidableEq

/-- The tail of `stream_reply` after moderation, routing and
`_build_context` (lines 191–328): tool context, user-payload rewriting,
memory context, the user-turn persistence, `_prepare_messages`, and the
generator drain with `_finalize_response` on `StopIteration`.  See the
section header for why a stream error yields no fallback call and leaves
`last_error = None`. -/
def finish_turn (settings : Settings) (collab : Collaborators) (st : ChatState)
    (moderationValue : String) (modLogs : List ModLogEvent) (choice : ModelChoice)
    (userText contextText0 : String) (fileqaCalls : Nat) : TurnResult :=
  let tc := tool_context collab.web_search collab.run_code st.search_provider
    userText choice.tools
  let context_text :=
    if tc.1 ≠ "" then
      (if contextText0 ≠ "" then pyStrip (contextText0 ++ "\n\n" ++ tc.1) else tc.1)
    else contextText0
  let trimmed := pyStrip userText
  let user_payload :=
    if pyStartsWith trimmed "/search" then
      (if pyStrip (pyDrop trimmed 7) ≠ "" then pyStrip (pyDrop trimmed 7) else userText)
    else if pyStartsWith trimmed "!run" then
      "Please review the execution output provided in the tool context and respond accordingly."
    else userText
  let memory_text := memory_context (collab.short_term st.session_id)
    (collab.long_term_hits user_payload) st.memory_enabled
  let stateMsgs1 := st.messages ++ [⟨"user", userText⟩]
  let msgs := prepare_messages (collab.persona_bundle st.persona_names) stateMsgs1
    user_payload context_text memory_text
    (min 6000 (4 * (settings.max_output_tokens : Int)))
  match collab.stream_final with
  | .ok result =>
    let assistant_text := String.join collab.stream_chunks
    let cost := result.usage.cost_usd choice.model
    { outcome := .ok (collab.stream_chunks,
        ⟨choice.model, moderationValue, choice.tools,
          result.usage.prompt_tokens, result.usage.completion_tokens, cost⟩),
      session_log := [⟨"user", userText⟩, ⟨"assistant", assistant_text⟩],
      state_messages := stateMsgs1 ++ [⟨"assistant", assistant_text⟩],
      active_model := choice.model,
      last_error := none,
      complete_calls := 0,
      search_calls := tc.2,
      fileqa_calls := fileqaCalls,
      moderation_log := modLogs,
      context_text := context_text,
      prompt_messages := msgs }
  | .error e =>
    { outcome := .error (.exn e),
      session_log := [⟨"user", userText⟩],
      state_messages := stateMsgs1,
      active_model := choice.model,
      last_error := none,
      complete_calls := 0,
      search_calls := tc.2,
      fileqa_calls := fileqaCalls,
      moderation_log := modLogs,
      context_text := context_text,
      prompt_messages := msgs }

/-- `stream_reply(state, user_text, attachments)`: attachment extension,
`last_error = None`, moderation (raising on `block`), routing,
`_build_context` (whose retrieval-collaborator exception propagates — there
is no try/except around it), then `finish_turn`. -/
def stream_reply (settings : Settings) (pol : ModerationPolicy)
    (collab : Collaborators) (st0 : ChatState) (userText : String)
    (newAttachments : List Attachment) : TurnResult :=
  let st := { st0 with attachments := st0.attachments ++ newAttachments,
                       last_error := none }
  let mod := moderation_step pol collab.classify st.moderation_enabled
    st.session_id userText
  if mod.1.action = .block then
    { outcome := .error (.moderationBlocked mod.1.reason),
      session_log := [], state_messages := st.messages,
      active_model := st.active_model, last_error := none,
      complete_calls := 0, search_calls := [], fileqa_calls := 0,
      moderation_log := mod.2.2, context_text := "", prompt_messages := [] }
  else
    let ctx := build_routing_context userText st.persona_names st.attachments
      st.messages.length st.model_override
      (newAttachments.any (fun a => a.type == "image")) st.temperature
    let choice := select_model settings ctx
    if "file_qna" ∈ choice.tools then
      match collab.fileqa_build_context st.session_id userText with
      | .error e =>
        { outcome := .error (.exn e), session_log := [],
          state_messages := st.messages, active_model := choice.model,
          last_error := none, complete_calls := 0, search_calls := [],
          fileqa_calls := 1, moderation_log := mod.2.2, context_text := "",
          prompt_messages := [] }
      | .ok ctxText =>
        finish_turn settings collab st mod.1.action.value mod.2.2 choice
          userText ctxText 1
    else
      finish_turn settings collab st mod.1.action.value mod.2.2 choice
        userText "" 0

/-- A moderation policy as configured by default categories (abridged to the
entry the examples exercise). -/
def examplePolicy : ModerationPolicy := ⟨.flag, [("hate", .block)]⟩

/-- A session with moderation and memory off, no history, no attachments. -/
def plainSession : ChatState :=
  { session_id := "s1", persona_names := ["general"],
    memory_enabled := false, moderation_enabled := false }

/-- Collaborators for the C1 failing input: the stream raises after one
yielded fragment; the synchronous completion collaborator would succeed. -/
def streamErrorCollab : Collaborators :=
  { classify := fun _ => ⟨[], []⟩,
    persona_bundle := fun _ => "You are Ashley",
    fileqa_build_context := fun _ _ => .error "retrieval io error",
    web_search := fun _ _ _ => .error "network down",
    run_code := fun _ => ⟨"", "", none, false, []⟩,
    short_term := fun _ => [],
    long_term_hits := fun _ => [],
    stream_chunks := ["Hel"],
    stream_final := .error "connection reset mid-stream",
    complete := .ok ⟨"recovered full answer", ⟨12, 7⟩, "resp-1"⟩ }

set_option maxRecDepth 40000 in
/-- C1 — evaluation of the code at a failing input: a turn whose user-turn
record has been written (the session log holds exactly the user record) and
whose streaming call then raises leaves *neither* of the two claimed
outcomes — no assistant-turn record is appended and `last_error` stays
`None` (it was cleared at the start of `stream_reply`) — because `next()`'s
exception propagates past the `StopIteration`-only handler while the
`except` that would record the error sits around the generator-constructor
call and is unreachable. -/
theorem stream_reply_stream_error_neither_outcome :
    (stream_reply {} examplePolicy streamErrorCollab plainSession "hello" []).session_log
        = [⟨"user", "hello"⟩] ∧
      (stream_reply {} examplePolicy streamErrorCollab plainSession "hello"
          []).last_error = none ∧
      (stream_reply {} examplePolicy streamErrorCollab plainSession "hello"
          []).outcome = .error (.exn "connection reset mid-stream") := by
  refine ⟨?_, ?_, ?_⟩ <;> rfl

/-- Collaborators for the C2 failing input: stream interrupted after a
partial fragment, synchronous completion collaborator healthy. -/
def fallbackCollab : Collaborators :=
  { classify := fun _ => ⟨[], []⟩,
    persona_bundle := fun _ => "You are Ashley",
    fileqa_build_context := fun _ _ => .ok "",
    web_search := fun _ _ _ => .ok [],
    run_code := fun _ => ⟨"", "", none, false, []⟩,
    short_term := fun _ => [],
    long_term_hits := fun _ => [],
    stream_chunks := ["partial "],
    stream_final := .error "stream interrupted",
    complete := .ok ⟨"fallback answer", ⟨3, 4⟩, "resp-2"⟩ }

set_option maxRecDepth 40000 in
/-- C2 — evaluation of the code at a failing input: when the streaming call
fails mid-stream, *no* synchronous fallback call is issued
(`complete_calls = 0`) even though the synchronous collaborator would
succeed, and the error propagates: the `try/except` at
`app/orchestrator.py` lines 276–315 wraps only the construction of the
`stream_response` generator (which never raises), and the drain loop
catches only `StopIteration`. -/
theorem stream_reply_no_fallback_sync_call :
    (stream_reply {} examplePolicy fallbackCollab plainSession "hi there"
        []).complete_calls = 0 ∧
      (stream_reply {} examplePolicy fallbackCollab plainSession "hi there"
          []).outcome = .error (.exn "stream interrupted") ∧
      fallbackCollab.complete = .ok ⟨"fallback answer", ⟨3, 4⟩, "resp-2"⟩ := by
  refine ⟨?_, ?_, ?_⟩ <;> rfl

/-- A session holding a PDF attachment, so the router derives `file_qna`. -/
def pdfSession : ChatState :=
  { session_id := "s3", persona_names := ["general"],
    attachments := [{ name := "report.pdf", type := "pdf" }],
    memory_enabled := false, moderation_enabled := false }

/-- Collaborators where both the retrieval (file Q&A) collaborator and the
search collaborator raise, while inference is healthy. -/
def bothContextFailCollab : Collaborators :=
  { classify := fun _ => ⟨[], []⟩,
    persona_bundle := fun _ => "You are Ashley",
    fileqa_build_context := fun _ _ => .error "retrieval down",
    web_search := fun _ _ _ => .error "search down",
    run_code := fun _ => ⟨"", "", none, false, []⟩,
    short_term := fun _ => [],
    long_term_hits := fun _ => [],
    stream_chunks := ["Hi!"],
    stream_final := .ok ⟨"Hi!", ⟨5, 2⟩, "resp-3"⟩,
    complete := .ok ⟨"Hi!", ⟨5, 2⟩, "resp-3"⟩ }

set_option maxRecDepth 40000 in
/-- Counterexample to C3 as stated: with a document attachment routed to
`file_qna`, a raising retrieval collaborator aborts the whole turn —
`stream_reply` propagates the retrieval exception (there is no try/except
around `_build_context`), no assistant response is produced and nothing is
persisted — contradicting "context-building failures are never propagated
as turn failures". -/
theorem stream_reply_retrieval_failure_counterexample :
    (stream_reply {} examplePolicy bothContextFailCollab pdfSession
        "summarize the attached report please" []).outcome
        = .error (.exn "retrieval down") ∧
      (stream_reply {} examplePolicy bothContextFailCollab pdfSession
          "summarize the attached report please" []).session_log = [] := by
  refine ⟨?_, ?_⟩ <;> rfl

lemma searchSectionOf_fst_of_error
    (search : String → String → Nat → Except String (List SearchHit))
    (provider userText : String) (tools : List String)
    (hsearch : ∀ q p n, ∃ e, search q p n = .error e) :
    (searchSectionOf search provider userText tools).1 = [] := by
  unfold searchSectionOf
  by_cases hs : "search" ∈ tools
  · rw [if_pos hs]
    dsimp only
    split
    · rename_i q hq
      by_cases hq' : q ≠ ""
      · rw [if_pos hq']
        obtain ⟨e, he⟩ := hsearch q provider 4
        rw [he]
        simp
      · rw [if_neg hq']
    · rfl
  · rw [if_neg hs]

lemma codeSectionOf_of_not_run (runCode : String → CodeExecResult)
    (userText : String) (tools : List String)
    (hrun : pyStartsWith (pyStrip userText) "!run" = false) :
    codeSectionOf runCode userText tools = [] := by
  unfold codeSectionOf
  dsimp only
  rw [if_neg]
  rintro ⟨-, hr⟩
  rw [hrun] at hr
  exact Bool.false_ne_true hr

/-- C3 (amended) — degraded context does not abort for the *search*
collaborator: for any turn that moderation does not block, if every search
call raises, the text is not a `!run` command, and `file_qna` is not among
the routed tools (so the raising retrieval collaborator is never invoked —
if it were, its exception would abort the turn, see the counterexample),
then `stream_reply` completes the turn with the assistant response from the
inference stream, persists user and assistant records, and the prompt's
tool/file context block is absent (empty). -/
theorem stream_reply_search_failure_degrades
    (settings : Settings) (pol : ModerationPolicy) (collab : Collaborators)
    (st0 : ChatState) (userText : String) (newAttachments : List Attachment)
    (r : StreamResult)
    (hmod : ¬ ((moderation_step pol collab.classify st0.moderation_enabled
        st0.session_id userText).1.action = .block))
    (hfq : "file_qna" ∉ (select_model settings (build_routing_context userText
        st0.persona_names (st0.attachments ++ newAttachments) st0.messages.length
        st0.model_override (newAttachments.any (fun a => a.type == "image"))
        st0.temperature)).tools)
    (hsearch : ∀ q p n, ∃ e, collab.web_search q p n = .error e)
    (hrun : pyStartsWith (pyStrip userText) "!run" = false)
    (hstream : collab.stream_final = .ok r) :
    ∃ s, (stream_reply settings pol collab st0 userText newAttachments).outcome
        = .ok (collab.stream_chunks, s) ∧
      (stream_reply settings pol collab st0 userText newAttachments).session_log
        = [⟨"user", userText⟩, ⟨"assistant", String.join collab.stream_chunks⟩] ∧
      (stream_reply settings pol collab st0 userText newAttachments).context_text
        = "" := by
  unfold stream_reply
  dsimp only
  rw [if_neg hmod, if_neg hfq]
  unfold finish_turn tool_context
  dsimp only
  rw [searchSectionOf_fst_of_error _ _ _ _ hsearch,
    codeSectionOf_of_not_run _ _ _ hrun, hstream]
  dsimp only
  exact ⟨_, rfl, rfl, rfl⟩

set_option maxRecDepth 40000 in
/-- Witness for C3 (amended): both context collaborators raise, no document
attachment is present, and the turn still completes with user+assistant
persisted and an empty context block. -/
theorem stream_reply_search_failure_degrades_witness :
    ∃ s, (stream_reply {} examplePolicy bothContextFailCollab plainSession
        "hello there" []).outcome
        = .ok (bothContextFailCollab.stream_chunks, s) ∧
      (stream_reply {} examplePolicy bothContextFailCollab plainSession
          "hello there" []).session_log
        = [⟨"user", "hello there"⟩,
          ⟨"assistant", String.join bothContextFailCollab.stream_chunks⟩] ∧
      (stream_reply {} examplePolicy bothContextFailCollab plainSession
          "hello there" []).context_text = "" :=
  stream_reply_search_failure_degrades {} examplePolicy bothContextFailCollab
    plainSession "hello there" [] ⟨"Hi!", ⟨5, 2⟩, "resp-3"⟩
    (by decide) (by decide) (fun q p n => ⟨"search down", rfl⟩) (by decide) rfl
